import Mathlib

/-!
Verification development for the WebAuthn relying-party service in
src/main.py.  The service is a thin HTTP layer over the webauthn
helper library: two option-generation endpoints and two verification
endpoints.  The endpoint handlers, the pydantic request models (with
their default values, including the tuple default produced by the
trailing comma on the attestation field), and the error mapping
(every exception becomes an HTTP 500 whose detail carries the raw
exception text) are embedded from src/main.py.  The webauthn library
functions that the handlers call are not part of the repository
sources; they are modelled from the spec (sections 4.1 to 4.5) and
each such definition is marked in its doc comment.
-/

/-- Modelled from the spec (section 6): base64url alphabet value of one
character, used by the library helper base64url_to_bytes.  Returns none
for a character outside the base64url alphabet. -/
def b64CharVal (ch : Char) : Option Nat :=
  if 65 ≤ ch.toNat ∧ ch.toNat ≤ 90 then some (ch.toNat - 65)
  else if 97 ≤ ch.toNat ∧ ch.toNat ≤ 122 then some (ch.toNat - 97 + 26)
  else if 48 ≤ ch.toNat ∧ ch.toNat ≤ 57 then some (ch.toNat - 48 + 52)
  else if ch = '-' then some 62
  else if ch = '_' then some 63
  else none

/-- Modelled from the spec (section 6): turn a list of 6-bit values into
bytes, four values giving three bytes, with a trailing group of two or
three values giving one or two bytes.  A trailing group of one value is
invalid. -/
def decodeGroups : List Nat → Option (List Nat)
  | [] => some []
  | [_] => none
  | [a, b] => some [a * 4 + b / 16]
  | [a, b, c] => some [a * 4 + b / 16, b % 16 * 16 + c / 4]
  | a :: b :: c :: d :: rest =>
    match decodeGroups rest with
    | none => none
    | some t => some ((a * 4 + b / 16) :: (b % 16 * 16 + c / 4) :: (c % 4 * 64 + d) :: t)

/-- Modelled from the spec (section 6): the library helper
base64url_to_bytes, decoding a base64url string to raw bytes; invalid
input raises an exception in the library, modelled as none. -/
def base64urlDecode (s : String) : Option (List Nat) :=
  match s.data.mapM b64CharVal with
  | none => none
  | some vals => decodeGroups vals

/-- COSE algorithm identifier for ECDSA-P256-SHA256, as imported in
src/main.py line 14 and used on line 101. -/
def COSEAlgorithmIdentifier.ECDSA_SHA_256 : Int := -7

/-- COSE algorithm identifier for RSA-PKCS1v1.5-SHA256, as imported in
src/main.py line 14 and used on line 101. -/
def COSEAlgorithmIdentifier.RSASSA_PKCS1_v1_5_SHA_256 : Int := -257

/-- The transport value used on src/main.py line 134. -/
def AuthenticatorTransport.INTERNAL : String := "internal"

/-- The attestation conveyance preference used as the default on
src/main.py line 63. -/
def AttestationConveyancePreference.NONE : String := "none"

/-- The valid attestation conveyance preference values of the WebAuthn
structs used by the library. -/
def AttestationConveyancePreference.values : List String :=
  ["none", "indirect", "direct", "enterprise"]

/-- The default resident key requirement on src/main.py line 52. -/
def ResidentKeyRequirement.PREFERRED : String := "preferred"

/-- The default user verification requirement on src/main.py line 77. -/
def UserVerificationRequirement.PREFERRED : String := "preferred"

/-- The valid user verification requirement values of the WebAuthn
structs used by the library. -/
def UserVerificationRequirement.values : List String :=
  ["required", "preferred", "discouraged"]

/-- A Python value that is either a string or a tuple of strings.  The
attestation field of the RegistrationOptions pydantic model needs this
type: its default on src/main.py line 63 is written with a trailing
comma, so the default value is a one-element tuple rather than a
string. -/
inductive PyStrValue where
  | str (s : String)
  | tuple (l : List String)
deriving DecidableEq

/-- The AuthenticatorSelection pydantic model, src/main.py lines 50-53. -/
structure AuthenticatorSelection where
  authenticator_attachment : String
  resident_key : String := ResidentKeyRequirement.PREFERRED
  require_resident_key : Bool := false
deriving DecidableEq

/-- The RegistrationOptions pydantic model, src/main.py lines 55-63.
Pydantic does not validate default values, so when the request omits
the attestation field the field holds the tuple default from the
trailing comma on line 63. -/
structure RegistrationOptions where
  rp_id : String
  rp_name : String
  user_id : String
  user_name : String
  user_display_name : String
  timeout : Nat := 60000
  authenticator_selection : AuthenticatorSelection
  attestation : PyStrValue := PyStrValue.tuple [AttestationConveyancePreference.NONE]
deriving DecidableEq

/-- The AuthenticationOptions pydantic model, src/main.py lines 73-77. -/
structure AuthenticationOptions where
  rp_id : String
  timeout : Nat := 60000
  credential_id : String
  user_verification : String := UserVerificationRequirement.PREFERRED
deriving DecidableEq

/-- Parsed client data, spec section 3 ClientData: the parsed form of
the client data JSON carried by a response, with the challenge already
decoded from base64url to bytes by the codec layer (section 4.1). -/
structure ParsedClientData where
  type : String
  challenge : List Nat
  origin : String
deriving DecidableEq

/-- Parsed authenticator data, spec section 3 AuthenticatorData: the
fields of the fixed 37-byte header that verification reads. -/
structure ParsedAuthData where
  rp_id_hash : List Nat
  user_present : Bool
  user_verified : Bool
  sign_count : Nat
deriving DecidableEq

/-- Attested credential data, spec section 4.1: credential id and the
CBOR-encoded COSE key bytes. -/
structure AttestedCredentialData where
  credential_id : List Nat
  cose_key_bytes : List Nat
deriving DecidableEq

/-- Modelled from the spec (section 4.1): a registration response after
the codec layer has parsed its binary fields.  The att_stmt_well_formed
flag records whether the attestation statement is structurally
well-formed for its declared format (spec section 4.4 step 7). -/
structure RegistrationResponse where
  client_data : ParsedClientData
  auth_data : ParsedAuthData
  fmt : String
  attested_credential_data : Option AttestedCredentialData
  att_stmt_well_formed : Bool
deriving DecidableEq

/-- Modelled from the spec (section 4.1): an authentication response
after parsing.  The raw byte fields are kept because the signature is
verified over raw authenticator data concatenated with the hash of the
raw client data JSON (spec section 4.3). -/
structure AuthenticationResponse where
  client_data : ParsedClientData
  auth_data : ParsedAuthData
  raw_auth_data : List Nat
  raw_client_data : List Nat
  signature : List Nat
deriving DecidableEq

/-- The RegisterCrendential pydantic model (name as written in the
source), src/main.py lines 65-70, with the credential dict held in its
parsed form. -/
structure RegisterCrendential where
  credential : RegistrationResponse
  expected_challenge : String
  expected_origin : String
  expected_rp_id : Option String
  require_user_verification : Bool := true
deriving DecidableEq

/-- The AuthenticationCredential pydantic model, src/main.py lines
79-86, with the credential dict held in its parsed form. -/
structure AuthenticationCredential where
  credential : AuthenticationResponse
  expected_challenge : String
  expected_origin : String
  expected_rp_id : Option String
  credential_public_key : String
  credential_current_sign_count : Nat := 0
  require_user_verification : Bool := true
deriving DecidableEq

/-- A COSE public key, spec section 3: algorithm identifier plus the
key material, the latter kept abstract as bytes. -/
structure COSEKey where
  alg : Int
  key_data : List Nat
deriving DecidableEq

/-- Result of a successful registration verification, spec section 4.4
step 8: the new credential record fields the caller persists. -/
structure VerifiedRegistration where
  credential_id : List Nat
  public_key : COSEKey
  sign_count : Nat
deriving DecidableEq

/-- Result of a successful authentication verification, spec section
4.5 step 8: the new sign count for the caller to persist. -/
structure VerifiedAuthentication where
  new_sign_count : Nat
deriving DecidableEq

/-- Modelled from the spec (section 7): the internal errors the library
verification functions raise.  There is no consumed-challenge error:
the verification functions receive the expected challenge as an
argument and keep no challenge store. -/
inductive VerifyError where
  | typeMismatch
  | challengeMismatch
  | originMismatch
  | rpIdMismatch
  | userVerificationRequired
  | malformedAttestation
  | unsupportedAlgorithm
  | signatureInvalid
  | possibleCloneDetected
  | badRequest
deriving DecidableEq

/-- Modelled from the spec (sections 7 and 9): the message text of each
internal exception.  The handlers in src/main.py lines 122-124 and
158-160 place exactly this text, via str of the exception, into the
HTTP 500 response detail. -/
def errText : VerifyError → String
  | VerifyError.typeMismatch => "Unexpected client data type"
  | VerifyError.challengeMismatch => "Client data challenge was not expected challenge"
  | VerifyError.originMismatch => "Unexpected client data origin"
  | VerifyError.rpIdMismatch => "Unexpected RP ID hash"
  | VerifyError.userVerificationRequired => "User verification required but user was not verified"
  | VerifyError.malformedAttestation => "Attestation statement was malformed"
  | VerifyError.unsupportedAlgorithm => "Unsupported public key algorithm"
  | VerifyError.signatureInvalid => "Could not verify signature"
  | VerifyError.possibleCloneDetected => "Response sign count was not greater than current sign count"
  | VerifyError.badRequest => "Invalid request value"

/-- The internal message of a base64url decoding failure raised by the
library helper base64url_to_bytes. -/
def base64ErrorText : String := "Invalid base64url string"

/-- The error shape produced by the endpoint handlers: HTTPException
with status_code 500 and a detail carrying the raw exception text,
src/main.py lines 108, 124, 141 and 160. -/
structure HttpError where
  status_code : Nat
  detail : String
deriving DecidableEq

/-- Modelled from the spec (sections 4.1 and 4.3): the pure
cryptographic primitives of the codec and verifier components, kept as
parameters of the pipelines.  sha256Str hashes an rp id string,
sha256Bytes hashes raw bytes, parseCoseKey decodes COSE key bytes, and
verifySig checks a signature of the given key over the given data. -/
structure Crypto where
  sha256Str : String → List Nat
  sha256Bytes : List Nat → List Nat
  parseCoseKey : List Nat → Option COSEKey
  verifySig : COSEKey → List Nat → List Nat → Bool

/-- Modelled from the spec (sections 2 and 4.3): whether a COSE
algorithm identifier is one the verifier supports; exactly
ECDSA-P256-SHA256 and RSA-PKCS1v1.5-SHA256. -/
def isSupportedAlg (a : Int) : Bool :=
  a == COSEAlgorithmIdentifier.ECDSA_SHA_256 ||
  a == COSEAlgorithmIdentifier.RSASSA_PKCS1_v1_5_SHA_256

/-- Modelled from the spec (section 4.5 step 7): the sign counter check
fires when counters are in use (either counter nonzero) and the
response counter is not strictly greater than the stored counter. -/
def signCountViolation (responseCount storedCount : Nat) : Bool :=
  (responseCount != 0 || storedCount != 0) && decide (responseCount ≤ storedCount)

/-- Modelled from the spec (section 4.2): challenge generation draws a
fixed number of bytes from the CSPRNG, modelled as an entropy stream;
the library draws 64 bytes, satisfying the at-least-16-bytes bound. -/
def generate_challenge (entropy : Nat → Nat) : List Nat :=
  (List.range 64).map (fun i => entropy i % 256)

/-- Modelled from the spec (section 4.4): the library function
verify_registration_response as called on src/main.py lines 113-119.
It receives the expected challenge as an argument and compares the
client data challenge against it; there is no challenge store. -/
def verify_registration_response (c : Crypto) (credential : RegistrationResponse)
    (expected_challenge : List Nat) (expected_origin : String)
    (expected_rp_id : Option String) (require_user_verification : Bool) :
    Except VerifyError VerifiedRegistration :=
  if credential.client_data.type = "webauthn.create" then
    if credential.client_data.challenge = expected_challenge then
      if credential.client_data.origin = expected_origin then
        match expected_rp_id with
        | none => Except.error VerifyError.badRequest
        | some rpid =>
          if c.sha256Str rpid = credential.auth_data.rp_id_hash then
            if credential.auth_data.user_present then
              if require_user_verification && !credential.auth_data.user_verified then
                Except.error VerifyError.userVerificationRequired
              else
                match credential.attested_credential_data with
                | none => Except.error VerifyError.malformedAttestation
                | some acd =>
                  match c.parseCoseKey acd.cose_key_bytes with
                  | none => Except.error VerifyError.malformedAttestation
                  | some key =>
                    if isSupportedAlg key.alg then
                      if credential.att_stmt_well_formed then
                        Except.ok
                          { credential_id := acd.credential_id
                            public_key := key
                            sign_count := credential.auth_data.sign_count }
                      else Except.error VerifyError.malformedAttestation
                    else Except.error VerifyError.unsupportedAlgorithm
            else Except.error VerifyError.userVerificationRequired
          else Except.error VerifyError.rpIdMismatch
      else Except.error VerifyError.originMismatch
    else Except.error VerifyError.challengeMismatch
  else Except.error VerifyError.typeMismatch

/-- Modelled from the spec (section 4.5): the library function
verify_authentication_response as called on src/main.py lines 147-155.
The stored credential state (public key and current sign count) is
supplied by the caller in the request; there is no challenge store. -/
def verify_authentication_response (c : Crypto) (credential : AuthenticationResponse)
    (expected_challenge : List Nat) (expected_rp_id : Option String)
    (expected_origin : String) (credential_public_key : String)
    (credential_current_sign_count : Nat) (require_user_verification : Bool) :
    Except VerifyError VerifiedAuthentication :=
  if credential.client_data.type = "webauthn.get" then
    if credential.client_data.challenge = expected_challenge then
      if credential.client_data.origin = expected_origin then
        match expected_rp_id with
        | none => Except.error VerifyError.badRequest
        | some rpid =>
          if c.sha256Str rpid = credential.auth_data.rp_id_hash then
            if credential.auth_data.user_present then
              if require_user_verification && !credential.auth_data.user_verified then
                Except.error VerifyError.userVerificationRequired
              else
                match (base64urlDecode credential_public_key).bind c.parseCoseKey with
                | none => Except.error VerifyError.badRequest
                | some key =>
                  if isSupportedAlg key.alg then
                    if c.verifySig key
                        (credential.raw_auth_data ++ c.sha256Bytes credential.raw_client_data)
                        credential.signature then
                      if signCountViolation credential.auth_data.sign_count
                          credential_current_sign_count then
                        Except.error VerifyError.possibleCloneDetected
                      else
                        Except.ok { new_sign_count := credential.auth_data.sign_count }
                    else Except.error VerifyError.signatureInvalid
                  else Except.error VerifyError.unsupportedAlgorithm
            else Except.error VerifyError.userVerificationRequired
          else Except.error VerifyError.rpIdMismatch
      else Except.error VerifyError.originMismatch
    else Except.error VerifyError.challengeMismatch
  else Except.error VerifyError.typeMismatch

/-- The registration options payload returned by the endpoint, spec
section 6 wire encoding of PublicKeyCredentialCreationOptions. -/
structure RegOptionsPayload where
  rpId : String
  rpName : String
  userId : String
  userName : String
  userDisplayName : String
  challenge : List Nat
  pubKeyCredParams : List Int
  timeout : Nat
  authenticatorSelection : AuthenticatorSelection
  attestation : String
deriving DecidableEq

/-- A credential descriptor as placed into the authentication options,
src/main.py line 134 and spec section 3. -/
structure PublicKeyCredentialDescriptor where
  id : List Nat
  transports : List String
deriving DecidableEq

/-- The authentication options payload returned by the endpoint, spec
section 6 wire encoding of PublicKeyCredentialRequestOptions. -/
structure AuthOptionsPayload where
  rpId : String
  challenge : List Nat
  timeout : Nat
  allowCredentials : List PublicKeyCredentialDescriptor
  userVerification : String
deriving DecidableEq

/-- Modelled from the spec (section 4.4): the library function
generate_registration_options as called on src/main.py lines 92-102.
The attestation argument must be a valid attestation conveyance
preference string; any other value (in particular the tuple default
from line 63) raises a validation error. -/
def generate_registration_options (entropy : Nat → Nat)
    (rp_id rp_name user_id user_name user_display_name : String)
    (attestation : PyStrValue) (authenticator_selection : AuthenticatorSelection)
    (timeout : Nat) (supported_pub_key_algs : List Int) :
    Except VerifyError RegOptionsPayload :=
  match attestation with
  | PyStrValue.str s =>
    if s ∈ AttestationConveyancePreference.values then
      Except.ok
        { rpId := rp_id
          rpName := rp_name
          userId := user_id
          userName := user_name
          userDisplayName := user_display_name
          challenge := generate_challenge entropy
          pubKeyCredParams := supported_pub_key_algs
          timeout := timeout
          authenticatorSelection := authenticator_selection
          attestation := s }
    else Except.error VerifyError.badRequest
  | PyStrValue.tuple _ => Except.error VerifyError.badRequest

/-- Modelled from the spec (section 4.5): the library function
generate_authentication_options as called on src/main.py lines
131-136. -/
def generate_authentication_options (entropy : Nat → Nat) (rp_id : String)
    (timeout : Nat) (allow_credentials : List PublicKeyCredentialDescriptor)
    (user_verification : String) : Except VerifyError AuthOptionsPayload :=
  if user_verification ∈ UserVerificationRequirement.values then
    Except.ok
      { rpId := rp_id
        challenge := generate_challenge entropy
        timeout := timeout
        allowCredentials := allow_credentials
        userVerification := user_verification }
  else Except.error VerifyError.badRequest

/-- The handler of POST register/credential, src/main.py lines 89-108:
calls generate_registration_options with the two supported algorithm
identifiers and maps any exception to HTTP 500 with the raw exception
text as detail. -/
def create_registration_credential_options (entropy : Nat → Nat)
    (options : RegistrationOptions) : Except HttpError RegOptionsPayload :=
  match generate_registration_options entropy options.rp_id options.rp_name
      options.user_id options.user_name options.user_display_name
      options.attestation options.authenticator_selection options.timeout
      [COSEAlgorithmIdentifier.ECDSA_SHA_256,
       COSEAlgorithmIdentifier.RSASSA_PKCS1_v1_5_SHA_256] with
  | Except.ok p => Except.ok p
  | Except.error e => Except.error { status_code := 500, detail := errText e }

/-- The handler of POST register/credential/verify, src/main.py lines
110-124: decodes the expected challenge from base64url, calls
verify_registration_response, and maps any exception to HTTP 500 with
the raw exception text as detail. -/
def verify_registration_credential (c : Crypto) (credential : RegisterCrendential) :
    Except HttpError VerifiedRegistration :=
  match base64urlDecode credential.expected_challenge with
  | none => Except.error { status_code := 500, detail := base64ErrorText }
  | some chal =>
    match verify_registration_response c credential.credential chal
        credential.expected_origin credential.expected_rp_id
        credential.require_user_verification with
    | Except.ok v => Except.ok v
    | Except.error e => Except.error { status_code := 500, detail := errText e }

/-- The handler of POST auth/credential, src/main.py lines 127-141:
decodes the caller supplied credential id, builds a single credential
descriptor with the fixed transports list containing only internal,
and maps any exception to HTTP 500 with the raw exception text. -/
def create_authentication_options (entropy : Nat → Nat)
    (options : AuthenticationOptions) : Except HttpError AuthOptionsPayload :=
  match base64urlDecode options.credential_id with
  | none => Except.error { status_code := 500, detail := base64ErrorText }
  | some cid =>
    match generate_authentication_options entropy options.rp_id options.timeout
        [{ id := cid, transports := [AuthenticatorTransport.INTERNAL] }]
        options.user_verification with
    | Except.ok p => Except.ok p
    | Except.error e => Except.error { status_code := 500, detail := errText e }

/-- The handler of POST auth/credential/verify, src/main.py lines
144-160: decodes the expected challenge, calls
verify_authentication_response with the caller supplied stored
credential state, and maps any exception to HTTP 500 with the raw
exception text as detail. -/
def verify_authentication_credential (c : Crypto) (credential : AuthenticationCredential) :
    Except HttpError VerifiedAuthentication :=
  match base64urlDecode credential.expected_challenge with
  | none => Except.error { status_code := 500, detail := base64ErrorText }
  | some chal =>
    match verify_authentication_response c credential.credential chal
        credential.expected_rp_id credential.expected_origin
        credential.credential_public_key credential.credential_current_sign_count
        credential.require_user_verification with
    | Except.ok v => Except.ok v
    | Except.error e => Except.error { status_code := 500, detail := errText e }

/-- One dispatch of an endpoint handler by the app.  The handlers in
src/main.py close over no mutable module state (the only module level
values are the immutable CORS configuration and the app object), so a
dispatch leaves any ambient server state unchanged and the response
depends on the request alone. -/
def app_post {σ α β : Type} (handler : α → β) (st : σ) (request : α) : β × σ :=
  (handler request, st)

/-- Two sequential dispatches of the same endpoint with the same
request, threading the server state: returns both responses and the
final state. -/
def app_post_twice {σ α β : Type} (handler : α → β) (st : σ) (request : α) :
    β × β × σ :=
  let r1 := app_post handler st request
  let r2 := app_post handler r1.2 request
  (r1.1, r2.1, r2.2)

/-! Concrete fixtures used by witnesses and counterexamples. -/

/-- A fixed entropy stream for concrete evaluations. -/
def entropyT : Nat → Nat := fun _ => 0

/-- A concrete instantiation of the cryptographic primitives for
evaluating the pipelines on closed inputs. -/
def cryptoT : Crypto :=
  { sha256Str := fun _ => [0]
    sha256Bytes := fun _ => [0]
    parseCoseKey := fun l => some { alg := -7, key_data := l }
    verifySig := fun _ _ _ => true }

/-- A concrete instantiation whose COSE key parser yields an EdDSA
algorithm identifier, outside the supported set. -/
def cryptoEdT : Crypto :=
  { sha256Str := fun _ => [0]
    sha256Bytes := fun _ => [0]
    parseCoseKey := fun l => some { alg := -8, key_data := l }
    verifySig := fun _ _ _ => true }

/-- Concrete parsed client data of an authentication response. -/
def clientDataGetT : ParsedClientData :=
  { type := "webauthn.get", challenge := [0, 0, 0], origin := "https://example.com" }

/-- Concrete parsed client data of a registration response. -/
def clientDataCreateT : ParsedClientData :=
  { type := "webauthn.create", challenge := [0, 0, 0], origin := "https://example.com" }

/-- Concrete parsed authenticator data with sign count 1. -/
def authDataT : ParsedAuthData :=
  { rp_id_hash := [0], user_present := true, user_verified := true, sign_count := 1 }

/-- A concrete authentication response. -/
def authResponseT : AuthenticationResponse :=
  { client_data := clientDataGetT, auth_data := authDataT,
    raw_auth_data := [], raw_client_data := [], signature := [] }

/-- A concrete registration response. -/
def regResponseT : RegistrationResponse :=
  { client_data := clientDataCreateT, auth_data := authDataT, fmt := "none",
    attested_credential_data := some { credential_id := [1], cose_key_bytes := [0] },
    att_stmt_well_formed := true }

/-- A concrete registration response whose authenticator data carries a
different rp id hash. -/
def regResponseBadHashT : RegistrationResponse :=
  { client_data := clientDataCreateT,
    auth_data := { rp_id_hash := [1], user_present := true,
                   user_verified := true, sign_count := 1 },
    fmt := "none",
    attested_credential_data := some { credential_id := [1], cose_key_bytes := [0] },
    att_stmt_well_formed := true }

/-- A concrete authentication verify request whose stored sign count is
0; together with cryptoT it verifies successfully. -/
def authCredT : AuthenticationCredential :=
  { credential := authResponseT, expected_challenge := "AAAA",
    expected_origin := "https://example.com", expected_rp_id := some "example.com",
    credential_public_key := "AAAA", credential_current_sign_count := 0,
    require_user_verification := true }

/-- The same request with stored sign count 5, so the response counter
1 is not strictly greater and the clone check fires. -/
def authCredCloneT : AuthenticationCredential :=
  { credential := authResponseT, expected_challenge := "AAAA",
    expected_origin := "https://example.com", expected_rp_id := some "example.com",
    credential_public_key := "AAAA", credential_current_sign_count := 5,
    require_user_verification := true }

/-- The same request with a mismatched expected origin. -/
def authCredOriginT : AuthenticationCredential :=
  { credential := authResponseT, expected_challenge := "AAAA",
    expected_origin := "https://other.example", expected_rp_id := some "example.com",
    credential_public_key := "AAAA", credential_current_sign_count := 0,
    require_user_verification := true }

/-- A concrete registration options request with the attestation field
explicitly given, as a request that supplies the field would fill it. -/
def regOptionsExplicitT : RegistrationOptions :=
  { rp_id := "example.com", rp_name := "Example", user_id := "dXNlcg",
    user_name := "alice", user_display_name := "Alice",
    timeout := 60000,
    authenticator_selection :=
      { authenticator_attachment := "platform", resident_key := "preferred",
        require_resident_key := false },
    attestation := PyStrValue.str "none" }

/-- A concrete registration options request that omits the attestation
field, so the pydantic default from src/main.py line 63 applies. -/
def regOptionsDefaultT : RegistrationOptions :=
  { rp_id := "example.com", rp_name := "Example", user_id := "dXNlcg",
    user_name := "alice", user_display_name := "Alice",
    authenticator_selection :=
      { authenticator_attachment := "platform", resident_key := "preferred",
        require_resident_key := false } }

/-- A concrete authentication options request. -/
def authOptionsT : AuthenticationOptions :=
  { rp_id := "example.com", timeout := 60000, credential_id := "AAAA",
    user_verification := "preferred" }

/-- The payload that the registration options endpoint returns for
regOptionsExplicitT under entropyT. -/
def regPayloadT : RegOptionsPayload :=
  { rpId := "example.com", rpName := "Example", userId := "dXNlcg",
    userName := "alice", userDisplayName := "Alice",
    challenge := generate_challenge entropyT,
    pubKeyCredParams := [COSEAlgorithmIdentifier.ECDSA_SHA_256,
                         COSEAlgorithmIdentifier.RSASSA_PKCS1_v1_5_SHA_256],
    timeout := 60000,
    authenticatorSelection :=
      { authenticator_attachment := "platform", resident_key := "preferred",
        require_resident_key := false },
    attestation := "none" }

/-- The payload that the authentication options endpoint returns for
authOptionsT under entropyT. -/
def authPayloadT : AuthOptionsPayload :=
  { rpId := "example.com", challenge := generate_challenge entropyT,
    timeout := 60000,
    allowCredentials := [{ id := [0, 0, 0],
                           transports := [AuthenticatorTransport.INTERNAL] }],
    userVerification := "preferred" }

deriving instance DecidableEq for Except

/-- A concrete registration verify request that verifies successfully
together with cryptoT. -/
def regCredT : RegisterCrendential :=
  { credential := regResponseT, expected_challenge := "AAAA",
    expected_origin := "https://example.com", expected_rp_id := some "example.com",
    require_user_verification := true }

/-- A registration response whose client data carries the
authentication ceremony type. -/
def regResponseWrongTypeT : RegistrationResponse :=
  { client_data := clientDataGetT, auth_data := authDataT, fmt := "none",
    attested_credential_data := some { credential_id := [1], cose_key_bytes := [0] },
    att_stmt_well_formed := true }

/-- An authentication response whose client data carries the
registration ceremony type. -/
def authResponseWrongTypeT : AuthenticationResponse :=
  { client_data := clientDataCreateT, auth_data := authDataT,
    raw_auth_data := [], raw_client_data := [], signature := [] }

/-! Theorems about the claims. -/

/-- C9: Neither verify endpoint reads or writes any server-side state:
the outcome of verify_registration and verify_authentication is a
deterministic function of the request payload alone (the caller
supplies expected_challenge, credential_public_key and
credential_current_sign_count), so two calls with identical request
payloads produce identical results.  Stated over an arbitrary ambient
server state type: the response is independent of the state and the
state is returned unchanged. -/
theorem C9_verify_stateless {σ : Type} (c : Crypto) (st st2 : σ)
    (rc : RegisterCrendential) (ac : AuthenticationCredential) :
    (app_post (verify_registration_credential c) st rc).1 =
      (app_post (verify_registration_credential c) st2 rc).1
    ∧ (app_post (verify_registration_credential c) st rc).2 = st
    ∧ (app_post (verify_authentication_credential c) st ac).1 =
      (app_post (verify_authentication_credential c) st2 ac).1
    ∧ (app_post (verify_authentication_credential c) st ac).2 = st :=
  ⟨rfl, rfl, rfl, rfl⟩

/-- C1 counterexample: a concrete authentication verify request that
succeeds, dispatched twice in sequence with the same challenge value:
both calls return Ok, so a challenge is not consumed and no
AlreadyConsumed error occurs on the second presentation. -/
theorem C1_challenge_reuse_counterexample :
    (app_post_twice (verify_authentication_credential cryptoT) () authCredT).1 =
      Except.ok { new_sign_count := 1 }
    ∧ (app_post_twice (verify_authentication_credential cryptoT) () authCredT).2.1 =
      Except.ok { new_sign_count := 1 } :=
  ⟨rfl, rfl⟩

/-- C1 amended: the verification endpoints keep no challenge store, so
a challenge value is never consumed: a second verification presenting
the same challenge value returns exactly the same result as the first
(in particular Ok succeeds again), the server state is unchanged, and
no AlreadyConsumed error exists in the service. -/
theorem C1_amended_stateless_challenge {σ : Type} (c : Crypto) (st : σ)
    (rc : RegisterCrendential) (ac : AuthenticationCredential) :
    (app_post_twice (verify_registration_credential c) st rc).1 =
      (app_post_twice (verify_registration_credential c) st rc).2.1
    ∧ (app_post_twice (verify_authentication_credential c) st ac).1 =
      (app_post_twice (verify_authentication_credential c) st ac).2.1
    ∧ (app_post_twice (verify_authentication_credential c) st ac).2.2 = st :=
  ⟨rfl, rfl, rfl⟩

/-- C7: a response whose parsed client data type is not
webauthn.create makes registration verification fail with
TypeMismatch, and a response whose client data type is not
webauthn.get makes authentication verification fail with TypeMismatch;
neither ceremony accepts a response of the other ceremony type. -/
theorem C7_ceremony_type_check (c : Crypto) (rr : RegistrationResponse)
    (ar : AuthenticationResponse) (chalR chalA : List Nat)
    (originR originA keyStr : String) (rpR rpA : Option String)
    (n : Nat) (u1 u2 : Bool)
    (h1 : rr.client_data.type ≠ "webauthn.create")
    (h2 : ar.client_data.type ≠ "webauthn.get") :
    verify_registration_response c rr chalR originR rpR u1 =
      Except.error VerifyError.typeMismatch
    ∧ verify_authentication_response c ar chalA rpA originA keyStr n u2 =
      Except.error VerifyError.typeMismatch := by
  constructor
  · unfold verify_registration_response
    rw [if_neg h1]
  · unfold verify_authentication_response
    rw [if_neg h2]

/-- C7 witness: a registration response carrying type webauthn.get is
rejected with TypeMismatch, and an authentication response carrying
type webauthn.create is rejected with TypeMismatch. -/
theorem C7_ceremony_type_check_witness :
    verify_registration_response cryptoT regResponseWrongTypeT [0, 0, 0]
      "https://example.com" (some "example.com") true =
      Except.error VerifyError.typeMismatch
    ∧ verify_authentication_response cryptoT authResponseWrongTypeT [0, 0, 0]
      (some "example.com") "https://example.com" "AAAA" 0 true =
      Except.error VerifyError.typeMismatch :=
  C7_ceremony_type_check cryptoT regResponseWrongTypeT authResponseWrongTypeT
    [0, 0, 0] [0, 0, 0] "https://example.com" "https://example.com" "AAAA"
    (some "example.com") (some "example.com") 0 true true
    (by decide) (by decide)

/-- C5: evaluation of the registration options endpoint at a request
that omits the attestation field.  The trailing comma on src/main.py
line 63 makes the pydantic default the one-element tuple containing
the string none rather than the string itself, and the library rejects
that value, so the endpoint returns HTTP 500 instead of succeeding
with the default attestation preference. -/
theorem C5_default_attestation_bug :
    regOptionsDefaultT.attestation = PyStrValue.tuple ["none"]
    ∧ create_registration_credential_options entropyT regOptionsDefaultT =
      Except.error { status_code := 500, detail := errText VerifyError.badRequest }
    ∧ create_registration_credential_options entropyT regOptionsExplicitT =
      Except.ok regPayloadT :=
  ⟨rfl, rfl, rfl⟩

/-- C4: in an otherwise-valid response (correct ceremony type and
matching challenge), an origin field different from expected_origin
yields OriginMismatch and an rp id hash different from the computed
hash of expected_rp_id yields RpIdMismatch, for both ceremonies; in
each case the result is the mismatch error, never an accept. -/
theorem C4_origin_rpid_binding (c : Crypto) (rr : RegistrationResponse)
    (ar : AuthenticationResponse) (chalR chalA : List Nat)
    (originR originA rpidR rpidA keyStr : String) (n : Nat) (u1 u2 : Bool)
    (hr1 : rr.client_data.type = "webauthn.create")
    (hr2 : rr.client_data.challenge = chalR)
    (ha1 : ar.client_data.type = "webauthn.get")
    (ha2 : ar.client_data.challenge = chalA) :
    (rr.client_data.origin ≠ originR →
      verify_registration_response c rr chalR originR (some rpidR) u1 =
        Except.error VerifyError.originMismatch)
    ∧ (rr.client_data.origin = originR →
       c.sha256Str rpidR ≠ rr.auth_data.rp_id_hash →
      verify_registration_response c rr chalR originR (some rpidR) u1 =
        Except.error VerifyError.rpIdMismatch)
    ∧ (ar.client_data.origin ≠ originA →
      verify_authentication_response c ar chalA (some rpidA) originA keyStr n u2 =
        Except.error VerifyError.originMismatch)
    ∧ (ar.client_data.origin = originA →
       c.sha256Str rpidA ≠ ar.auth_data.rp_id_hash →
      verify_authentication_response c ar chalA (some rpidA) originA keyStr n u2 =
        Except.error VerifyError.rpIdMismatch) := by
  refine ⟨?_, ?_, ?_, ?_⟩
  · intro h
    simp [verify_registration_response, hr1, hr2, h]
  · intro h hh
    simp [verify_registration_response, hr1, hr2, h, hh]
  · intro h
    simp [verify_authentication_response, ha1, ha2, h]
  · intro h hh
    simp [verify_authentication_response, ha1, ha2, h, hh]

/-- C4 witness: the concrete registration response is rejected with
OriginMismatch when verified against a different expected origin, and
the variant whose authenticator data carries a different rp id hash is
rejected with RpIdMismatch. -/
theorem C4_origin_rpid_binding_witness :
    verify_registration_response cryptoT regResponseT [0, 0, 0]
      "https://other.example" (some "example.com") true =
      Except.error VerifyError.originMismatch
    ∧ verify_registration_response cryptoT regResponseBadHashT [0, 0, 0]
      "https://example.com" (some "example.com") true =
      Except.error VerifyError.rpIdMismatch :=
  ⟨(C4_origin_rpid_binding cryptoT regResponseT authResponseT [0, 0, 0] [0, 0, 0]
      "https://other.example" "https://example.com" "example.com" "example.com"
      "AAAA" 0 true true rfl rfl rfl rfl).1 (by decide),
   (C4_origin_rpid_binding cryptoT regResponseBadHashT authResponseT [0, 0, 0]
      [0, 0, 0] "https://example.com" "https://example.com" "example.com"
      "example.com" "AAAA" 0 true true rfl rfl rfl rfl).2.1 rfl (by decide)⟩

/-- C2: for a stored credential with sign count n, when the checks
before the counter check pass, an assertion whose sign count is not
strictly greater than n yields PossibleCloneDetected whenever counters
are in use (either counter nonzero), and the call succeeds exactly
when the counter check is satisfied, which when both counters are zero
holds vacuously (the strict check is skipped). -/
theorem C2_sign_count_check (c : Crypto) (ar : AuthenticationResponse)
    (chal : List Nat) (rpid origin keyStr : String) (n : Nat) (ruv : Bool)
    (key : COSEKey)
    (h1 : ar.client_data.type = "webauthn.get")
    (h2 : ar.client_data.challenge = chal)
    (h3 : ar.client_data.origin = origin)
    (h4 : c.sha256Str rpid = ar.auth_data.rp_id_hash)
    (h5 : ar.auth_data.user_present = true)
    (h6 : ruv = true → ar.auth_data.user_verified = true)
    (h7 : (base64urlDecode keyStr).bind c.parseCoseKey = some key)
    (h8 : isSupportedAlg key.alg = true)
    (h9 : c.verifySig key (ar.raw_auth_data ++ c.sha256Bytes ar.raw_client_data)
            ar.signature = true) :
    ((ar.auth_data.sign_count ≠ 0 ∨ n ≠ 0) ∧ ar.auth_data.sign_count ≤ n →
      verify_authentication_response c ar chal (some rpid) origin keyStr n ruv =
        Except.error VerifyError.possibleCloneDetected)
    ∧ (((ar.auth_data.sign_count ≠ 0 ∨ n ≠ 0) → n < ar.auth_data.sign_count) →
      verify_authentication_response c ar chal (some rpid) origin keyStr n ruv =
        Except.ok { new_sign_count := ar.auth_data.sign_count }) := by
  have huv : (ruv && !ar.auth_data.user_verified) = false := by
    cases hr : ruv with
    | false => simp
    | true => simp [h6 hr]
  constructor
  · intro hcnt
    have hv : signCountViolation ar.auth_data.sign_count n = true := by
      simp only [signCountViolation, Bool.and_eq_true, Bool.or_eq_true,
        bne_iff_ne, ne_eq, decide_eq_true_eq]
      omega
    simp [verify_authentication_response, h1, h2, h3, h4, h5, huv, h7, h8, h9, hv]
  · intro hmono
    have hv : signCountViolation ar.auth_data.sign_count n = false := by
      simp only [signCountViolation, Bool.and_eq_false_iff, Bool.or_eq_false_iff,
        bne_eq_false_iff_eq, decide_eq_false_iff_not, not_le]
      omega
    simp [verify_authentication_response, h1, h2, h3, h4, h5, huv, h7, h8, h9, hv]

/-- C2 witness: the concrete assertion reporting sign count 1 against
a stored sign count of 5 yields PossibleCloneDetected, and against a
stored sign count of 0 it succeeds with new sign count 1. -/
theorem C2_sign_count_check_witness :
    verify_authentication_response cryptoT authResponseT [0, 0, 0]
      (some "example.com") "https://example.com" "AAAA" 5 true =
      Except.error VerifyError.possibleCloneDetected
    ∧ verify_authentication_response cryptoT authResponseT [0, 0, 0]
      (some "example.com") "https://example.com" "AAAA" 0 true =
      Except.ok { new_sign_count := 1 } :=
  ⟨(C2_sign_count_check cryptoT authResponseT [0, 0, 0] "example.com"
      "https://example.com" "AAAA" 5 true { alg := -7, key_data := [0, 0, 0] }
      rfl rfl rfl rfl rfl (fun _ => rfl) (by decide) (by decide) rfl).1
      (by decide),
   (C2_sign_count_check cryptoT authResponseT [0, 0, 0] "example.com"
      "https://example.com" "AAAA" 0 true { alg := -7, key_data := [0, 0, 0] }
      rfl rfl rfl rfl rfl (fun _ => rfl) (by decide) (by decide) rfl).2
      (by omega)⟩

/-- Helper: a successful registration options response carries the
generated challenge and the exact supported algorithm list passed on
src/main.py line 101. -/
theorem regOptionsOkShape (entropy : Nat → Nat) (options : RegistrationOptions)
    (p : RegOptionsPayload)
    (hp : create_registration_credential_options entropy options = Except.ok p) :
    p.challenge = generate_challenge entropy
    ∧ p.pubKeyCredParams = [COSEAlgorithmIdentifier.ECDSA_SHA_256,
        COSEAlgorithmIdentifier.RSASSA_PKCS1_v1_5_SHA_256] := by
  rcases hatt : options.attestation with s | l
  · by_cases hs : s ∈ AttestationConveyancePreference.values
    · simp [create_registration_credential_options,
        generate_registration_options, hatt, hs] at hp
      subst hp
      exact ⟨rfl, rfl⟩
    · simp [create_registration_credential_options,
        generate_registration_options, hatt, hs] at hp
  · simp [create_registration_credential_options,
      generate_registration_options, hatt] at hp

/-- Helper: a successful authentication options response carries the
generated challenge and exactly one credential descriptor, built from
the decoded caller-supplied credential id with the fixed transports
list containing only internal, src/main.py line 134. -/
theorem authOptionsOkShape (entropy : Nat → Nat) (options : AuthenticationOptions)
    (q : AuthOptionsPayload)
    (hq : create_authentication_options entropy options = Except.ok q) :
    q.challenge = generate_challenge entropy
    ∧ ∃ cid, base64urlDecode options.credential_id = some cid
      ∧ q.allowCredentials =
          [{ id := cid, transports := [AuthenticatorTransport.INTERNAL] }] := by
  rcases hdec : base64urlDecode options.credential_id with _ | cid
  · simp [create_authentication_options, hdec] at hq
  · by_cases huv : options.user_verification ∈ UserVerificationRequirement.values
    · simp [create_authentication_options, generate_authentication_options,
        hdec, huv] at hq
      subst hq
      exact ⟨rfl, cid, rfl, rfl⟩
    · simp [create_authentication_options, generate_authentication_options,
        hdec, huv] at hq

/-- C8: whenever the registration or authentication options endpoint
returns a payload, the challenge value it contains is a byte string of
length at least 16 (the generator draws 64 CSPRNG bytes). -/
theorem C8_challenge_length (entropy : Nat → Nat) (ro : RegistrationOptions)
    (ao : AuthenticationOptions) (p : RegOptionsPayload) (q : AuthOptionsPayload)
    (hp : create_registration_credential_options entropy ro = Except.ok p)
    (hq : create_authentication_options entropy ao = Except.ok q) :
    16 ≤ p.challenge.length ∧ 16 ≤ q.challenge.length := by
  constructor
  · rw [(regOptionsOkShape entropy ro p hp).1]
    simp [generate_challenge]
  · rw [(authOptionsOkShape entropy ao q hq).1]
    simp [generate_challenge]

/-- C8 witness: the payloads returned for the concrete options
requests carry challenges of length at least 16. -/
theorem C8_challenge_length_witness :
    16 ≤ regPayloadT.challenge.length ∧ 16 ≤ authPayloadT.challenge.length :=
  C8_challenge_length entropyT regOptionsExplicitT authOptionsT
    regPayloadT authPayloadT rfl rfl

/-- C10: whenever the authentication options endpoint returns a
payload, its allowCredentials list contains exactly one descriptor,
whose id is the decoded caller-supplied credential_id and whose
transports are the single fixed value internal, regardless of the
credential. -/
theorem C10_allow_credentials (entropy : Nat → Nat) (ao : AuthenticationOptions)
    (q : AuthOptionsPayload)
    (hq : create_authentication_options entropy ao = Except.ok q) :
    ∃ cid, base64urlDecode ao.credential_id = some cid
      ∧ q.allowCredentials =
          [{ id := cid, transports := [AuthenticatorTransport.INTERNAL] }] :=
  (authOptionsOkShape entropy ao q hq).2

/-- C10 witness: the payload returned for the concrete authentication
options request has exactly the one decoded descriptor with transports
internal. -/
theorem C10_allow_credentials_witness :
    ∃ cid, base64urlDecode authOptionsT.credential_id = some cid
      ∧ authPayloadT.allowCredentials =
          [{ id := cid, transports := [AuthenticatorTransport.INTERNAL] }] :=
  C10_allow_credentials entropyT authOptionsT authPayloadT rfl

/-- C6: the registration options advertise exactly the two COSE
algorithm identifiers ECDSA-P256-SHA256 and RSA-PKCS1v1.5-SHA256, and
verification of a credential whose COSE key carries any other
algorithm identifier fails with UnsupportedAlgorithm in both
ceremonies (given that the checks before the algorithm check pass). -/
theorem C6_supported_algorithms (entropy : Nat → Nat)
    (options : RegistrationOptions) (p : RegOptionsPayload) (c : Crypto)
    (rr : RegistrationResponse) (ar : AuthenticationResponse)
    (chalR chalA : List Nat) (originR originA rpidR rpidA keyStr : String)
    (n : Nat) (u1 u2 : Bool) (acd : AttestedCredentialData) (keyR keyA : COSEKey)
    (hp : create_registration_credential_options entropy options = Except.ok p)
    (hr1 : rr.client_data.type = "webauthn.create")
    (hr2 : rr.client_data.challenge = chalR)
    (hr3 : rr.client_data.origin = originR)
    (hr4 : c.sha256Str rpidR = rr.auth_data.rp_id_hash)
    (hr5 : rr.auth_data.user_present = true)
    (hr6 : u1 = true → rr.auth_data.user_verified = true)
    (hr7 : rr.attested_credential_data = some acd)
    (hr8 : c.parseCoseKey acd.cose_key_bytes = some keyR)
    (hr9 : isSupportedAlg keyR.alg = false)
    (ha1 : ar.client_data.type = "webauthn.get")
    (ha2 : ar.client_data.challenge = chalA)
    (ha3 : ar.client_data.origin = originA)
    (ha4 : c.sha256Str rpidA = ar.auth_data.rp_id_hash)
    (ha5 : ar.auth_data.user_present = true)
    (ha6 : u2 = true → ar.auth_data.user_verified = true)
    (ha7 : (base64urlDecode keyStr).bind c.parseCoseKey = some keyA)
    (ha8 : isSupportedAlg keyA.alg = false) :
    p.pubKeyCredParams = [COSEAlgorithmIdentifier.ECDSA_SHA_256,
        COSEAlgorithmIdentifier.RSASSA_PKCS1_v1_5_SHA_256]
    ∧ verify_registration_response c rr chalR originR (some rpidR) u1 =
        Except.error VerifyError.unsupportedAlgorithm
    ∧ verify_authentication_response c ar chalA (some rpidA) originA keyStr n u2 =
        Except.error VerifyError.unsupportedAlgorithm := by
  have huv1 : (u1 && !rr.auth_data.user_verified) = false := by
    cases hr : u1 with
    | false => simp
    | true => simp [hr6 hr]
  have huv2 : (u2 && !ar.auth_data.user_verified) = false := by
    cases hr : u2 with
    | false => simp
    | true => simp [ha6 hr]
  refine ⟨(regOptionsOkShape entropy options p hp).2, ?_, ?_⟩
  · simp [verify_registration_response, hr1, hr2, hr3, hr4, hr5, huv1,
      hr7, hr8, hr9]
  · simp [verify_authentication_response, ha1, ha2, ha3, ha4, ha5, huv2,
      ha7, ha8]

/-- C6 witness: the concrete registration options payload advertises
exactly the two identifiers, and with a COSE key parser yielding the
EdDSA identifier both verification pipelines reject with
UnsupportedAlgorithm. -/
theorem C6_supported_algorithms_witness :
    regPayloadT.pubKeyCredParams = [COSEAlgorithmIdentifier.ECDSA_SHA_256,
        COSEAlgorithmIdentifier.RSASSA_PKCS1_v1_5_SHA_256]
    ∧ verify_registration_response cryptoEdT regResponseT [0, 0, 0]
        "https://example.com" (some "example.com") true =
        Except.error VerifyError.unsupportedAlgorithm
    ∧ verify_authentication_response cryptoEdT authResponseT [0, 0, 0]
        (some "example.com") "https://example.com" "AAAA" 0 true =
        Except.error VerifyError.unsupportedAlgorithm :=
  C6_supported_algorithms entropyT regOptionsExplicitT regPayloadT cryptoEdT
    regResponseT authResponseT [0, 0, 0] [0, 0, 0] "https://example.com"
    "https://example.com" "example.com" "example.com" "AAAA" 0 true true
    { credential_id := [1], cose_key_bytes := [0] }
    { alg := -8, key_data := [0] } { alg := -8, key_data := [0, 0, 0] }
    rfl rfl rfl rfl rfl rfl (fun _ => rfl) rfl rfl (by decide)
    rfl rfl rfl rfl rfl (fun _ => rfl) (by decide) (by decide)

/-- C3 counterexample: two concrete failing verification requests, one
failing the clone-detection check and one failing the origin check.
Both are returned to the caller as status 500 with the raw internal
exception text in the detail field (the handlers on src/main.py lines
122-124 and 158-160 place str of the exception there), so the caller
receives the internal error text and no distinct typed error code
separates PossibleCloneDetected from an input-validation failure. -/
theorem C3_raw_error_counterexample :
    verify_authentication_credential cryptoT authCredCloneT =
      Except.error { status_code := 500,
                     detail := errText VerifyError.possibleCloneDetected }
    ∧ verify_authentication_credential cryptoT authCredOriginT =
      Except.error { status_code := 500,
                     detail := errText VerifyError.originMismatch } :=
  ⟨rfl, rfl⟩

/-- C3 amended: every failing verification is returned to the caller
as HTTP status 500 whose detail is the raw internal exception text
(either the base64url decoding error text or the message text of the
library verification error); there is no separate stable set of typed
error codes, and PossibleCloneDetected or SignatureInvalid reach the
caller only through that leaked message string. -/
theorem C3_amended_raw_error_text (c : Crypto) (rc : RegisterCrendential)
    (ac : AuthenticationCredential) (err : HttpError) :
    (verify_registration_credential c rc = Except.error err →
      err.status_code = 500
      ∧ (err.detail = base64ErrorText ∨ ∃ e, err.detail = errText e))
    ∧ (verify_authentication_credential c ac = Except.error err →
      err.status_code = 500
      ∧ (err.detail = base64ErrorText ∨ ∃ e, err.detail = errText e)) := by
  constructor
  · intro h
    unfold verify_registration_credential at h
    split at h
    · injection h with h1
      subst h1
      exact ⟨rfl, Or.inl rfl⟩
    · split at h
      · exact absurd h (by simp)
      · injection h with h1
        subst h1
        exact ⟨rfl, Or.inr ⟨_, rfl⟩⟩
  · intro h
    unfold verify_authentication_credential at h
    split at h
    · injection h with h1
      subst h1
      exact ⟨rfl, Or.inl rfl⟩
    · split at h
      · exact absurd h (by simp)
      · injection h with h1
        subst h1
        exact ⟨rfl, Or.inr ⟨_, rfl⟩⟩

/-- C3 amended witness: at the concrete clone-detection failure the
response has status 500 and its detail is one of the internal
exception texts. -/
theorem C3_amended_raw_error_text_witness :
    ({ status_code := 500,
       detail := errText VerifyError.possibleCloneDetected } : HttpError).status_code = 500
    ∧ (({ status_code := 500,
          detail := errText VerifyError.possibleCloneDetected } : HttpError).detail = base64ErrorText
       ∨ ∃ e, ({ status_code := 500,
                 detail := errText VerifyError.possibleCloneDetected } : HttpError).detail = errText e) :=
  (C3_amended_raw_error_text cryptoT regCredT authCredCloneT
    { status_code := 500,
      detail := errText VerifyError.possibleCloneDetected }).2 (by decide)
